import Mathlib

/-!
Verification of the traffic-corridor simulation, live-weighted routing and
SPaT replay core of the amd-slingshot-mvp backend.

The Python sources are shallowly embedded: Python floats become exact
rationals (`ℚ`), Python dicts become association lists, raised exceptions
become `Except` / `Option` results, and the `time.sleep` / threading-lock
machinery of the replay generator is dropped (only the sequence of yielded
values is modelled).
-/

namespace Slingshot

/-- Signal phase enumeration (the strings "GREEN"/"YELLOW"/"RED" of the code). -/
inductive Phase where
  | GREEN
  | YELLOW
  | RED
deriving DecidableEq, Repr

/-! ## Corridor simulation (src/backend/core/corridor.py) -/

/-- The corridor intersection ids (corridor.py, `CORRIDOR_IDS`). -/
def CORRIDOR_IDS : List String :=
  ["INT_0", "INT_1", "INT_2", "INT_3", "INT_4", "INT_5", "INT_6", "INT_7"]

/-- Simulation timestep in seconds (corridor.py, `DT = 5.0`). -/
def DT : ℚ := 5

/-- `baseline_signal(t, node_idx)`: fixed 90-second cycle, 40 s green,
5 s yellow, per-node offset `(node_idx * 13) % 90`.  In every call made by
the simulation `t` is a whole number of seconds, so it is taken as `ℕ`. -/
def baseline_signal (t : ℕ) (node_idx : ℕ) : Phase :=
  let cycle := 90
  let offset := (node_idx * 13) % cycle
  let loc := (t + offset) % cycle
  if loc < 40 then Phase.GREEN
  else if loc < 45 then Phase.YELLOW
  else Phase.RED

/-- Python `int(x)` on a float: truncation toward zero. -/
def int_trunc (x : ℚ) : ℤ :=
  if 0 ≤ x then Int.floor x else Int.ceil x

/-- The adaptive green duration `min(55, 25 + int(queue * 0.6))` from
`optimized_signal` (corridor.py line 58). -/
def green_time (queue : ℚ) : ℤ :=
  min 55 (25 + int_trunc (queue * (6 / 10)))

/-- `optimized_signal(t, node_idx, queue)`: 75-second cycle, adaptive green
extension, 4 s yellow, offset `(node_idx * 9) % 75`. -/
def optimized_signal (t : ℕ) (node_idx : ℕ) (queue : ℚ) : Phase :=
  let cycle := 75
  let offset := (node_idx * 9) % cycle
  let loc := (t + offset) % cycle
  if (loc : ℤ) < green_time queue then Phase.GREEN
  else if (loc : ℤ) < green_time queue + 4 then Phase.YELLOW
  else Phase.RED

/-- Per-intersection simulation state (corridor.py, `NodeState`). -/
structure NodeState where
  queue : ℚ
  delay : ℚ
deriving DecidableEq, Repr

/-- One baseline tick of a single intersection (corridor.py lines 112-121):
under GREEN `queue = max(0, queue + arrivals - 0.5*DT)`; under RED the queue
grows by the arrivals and the delay by the updated `queue * DT`; under YELLOW
the queue grows by `arrivals * 0.2`.  `arrivals` is already the per-tick
vehicle count `arrival_rate(t) * DT`. -/
def stepBaseline (t : ℕ) (i : ℕ) (arrivals : ℚ) (s : NodeState) : NodeState :=
  match baseline_signal t i with
  | Phase.GREEN => { s with queue := max 0 (s.queue + arrivals - (5 / 10) * DT) }
  | Phase.RED =>
      { queue := s.queue + arrivals
        delay := s.delay + (s.queue + arrivals) * DT }
  | Phase.YELLOW => { s with queue := s.queue + arrivals * (2 / 10) }

/-- One optimized tick of a single intersection (corridor.py lines 124-133):
GREEN discharges `0.65*DT`, RED accumulates delay damped by `0.55`, YELLOW
admits `arrivals * 0.15`.  The signal is chosen from the node's own current
queue. -/
def stepOptimized (t : ℕ) (i : ℕ) (arrivals : ℚ) (s : NodeState) : NodeState :=
  match optimized_signal t i s.queue with
  | Phase.GREEN => { s with queue := max 0 (s.queue + arrivals - (65 / 100) * DT) }
  | Phase.RED =>
      { queue := s.queue + arrivals
        delay := s.delay + (s.queue + arrivals) * DT * (55 / 100) }
  | Phase.YELLOW => { s with queue := s.queue + arrivals * (15 / 100) }

/-- State of baseline intersection `i` after `k` simulated ticks, starting
from queue 0 and delay 0; tick `k` runs at simulated time `t = 5 * k`.
The arrival-rate function `arr` (a real-valued sine profile in the code,
`arrival_rate`) is kept abstract: every property proved below holds for
every arrival profile, in particular for the one in the code. -/
def baselineState (arr : ℕ → ℚ) (i : ℕ) : ℕ → NodeState
  | 0 => ⟨0, 0⟩
  | k + 1 => stepBaseline (5 * k) i (arr (5 * k) * DT) (baselineState arr i k)

/-- State of optimized intersection `i` after `k` simulated ticks. -/
def optimizedState (arr : ℕ → ℚ) (i : ℕ) : ℕ → NodeState
  | 0 => ⟨0, 0⟩
  | k + 1 => stepOptimized (5 * k) i (arr (5 * k) * DT) (optimizedState arr i k)

/-- Banker's rounding to an integer: Python's `round` on a value exactly
representable as a rational (ties go to the even integer). -/
def roundHalfEven (x : ℚ) : ℤ :=
  let f := Int.floor x
  let r := x - f
  if r < 1 / 2 then f
  else if 1 / 2 < r then f + 1
  else if f % 2 = 0 then f else f + 1

/-- Python `round(x, n)`: banker's rounding to `n` decimal digits. -/
def pyRound (x : ℚ) (n : ℕ) : ℚ :=
  (roundHalfEven (x * 10 ^ n) : ℚ) / 10 ^ n

/-- One record of a comparison series (corridor.py lines 143-157). -/
structure RunRecord where
  time_s : ℤ
  queue_length : ℚ
  avg_delay_s : ℚ
  fuel_L : ℚ
  co2_kg : ℚ
deriving DecidableEq, Repr

/-- `_per_vehicle_fuel`: 0.6 L per vehicle-minute of idling. -/
def per_vehicle_fuel (idling_seconds : ℚ) : ℚ :=
  idling_seconds * ((6 / 10) / 60)

/-- Total queue over the corridor in the baseline run after `k` ticks. -/
def baselineTotalQ (arr : ℕ → ℚ) (k : ℕ) : ℚ :=
  ((List.range CORRIDOR_IDS.length).map fun i => (baselineState arr i k).queue).sum

/-- Total accumulated delay over the corridor in the baseline run after `k` ticks. -/
def baselineTotalD (arr : ℕ → ℚ) (k : ℕ) : ℚ :=
  ((List.range CORRIDOR_IDS.length).map fun i => (baselineState arr i k).delay).sum

/-- Total queue over the corridor in the optimized run after `k` ticks. -/
def optimizedTotalQ (arr : ℕ → ℚ) (k : ℕ) : ℚ :=
  ((List.range CORRIDOR_IDS.length).map fun i => (optimizedState arr i k).queue).sum

/-- Total accumulated delay over the corridor in the optimized run after `k` ticks. -/
def optimizedTotalD (arr : ℕ → ℚ) (k : ℕ) : ℚ :=
  ((List.range CORRIDOR_IDS.length).map fun i => (optimizedState arr i k).delay).sum

/-- The record appended to `baseline_series` at tick `k` (simulated time
`t = 5k`); it reads the node states after the tick-`k` update. -/
def baselineRecord (arr : ℕ → ℚ) (k : ℕ) : RunRecord :=
  let arrivals := arr (5 * k) * DT
  let tq := baselineTotalQ arr (k + 1)
  let td := baselineTotalD arr (k + 1)
  let fuel := per_vehicle_fuel td
  { time_s := roundHalfEven (5 * (k : ℚ))
    queue_length := pyRound tq 1
    avg_delay_s := pyRound (td / (CORRIDOR_IDS.length * max 1 arrivals)) 1
    fuel_L := pyRound fuel 3
    co2_kg := pyRound (fuel * (231 / 100)) 3 }

/-- The record appended to `optimized_series` at tick `k`. -/
def optimizedRecord (arr : ℕ → ℚ) (k : ℕ) : RunRecord :=
  let arrivals := arr (5 * k) * DT
  let tq := optimizedTotalQ arr (k + 1)
  let td := optimizedTotalD arr (k + 1)
  let fuel := per_vehicle_fuel td
  { time_s := roundHalfEven (5 * (k : ℚ))
    queue_length := pyRound tq 1
    avg_delay_s := pyRound (td / (CORRIDOR_IDS.length * max 1 arrivals)) 1
    fuel_L := pyRound fuel 3
    co2_kg := pyRound (fuel * (231 / 100)) 3 }

/-- Number of iterations of the loop `t = 0; while t <= duration: ...; t += DT`:
`⌊duration / 5⌋ + 1` ticks for a non-negative duration, none otherwise. -/
def numTicks (duration_s : ℚ) : ℕ :=
  if duration_s < 0 then 0 else (Int.floor (duration_s / DT)).toNat + 1

/-- Final summary of `run_comparison` (corridor.py lines 162-170); `none`
models the `IndexError` that `baseline_series[-1]` raises on an empty series. -/
structure RunSummary where
  queue_reduction_pct : ℚ
  delay_reduction_pct : ℚ
  fuel_saved_L : ℚ
  co2_saved_kg : ℚ
  baseline_final_queue : ℚ
  optimized_final_queue : ℚ
deriving DecidableEq, Repr

/-- Result of `run_comparison`. -/
structure RunResult where
  duration_s : ℚ
  baseline : List RunRecord
  optimized : List RunRecord
  summary : Option RunSummary
deriving DecidableEq, Repr

/-- `run_comparison(duration_s)` (corridor.py lines 90-185), parametrized by
the arrival-rate profile `arr` (see `baselineState`). -/
def run_comparison (arr : ℕ → ℚ) (duration_s : ℚ) : RunResult :=
  let baseline_series := (List.range (numTicks duration_s)).map (baselineRecord arr)
  let optimized_series := (List.range (numTicks duration_s)).map (optimizedRecord arr)
  let summary :=
    match baseline_series.getLast?, optimized_series.getLast? with
    | some bfin, some ofin =>
        some { queue_reduction_pct :=
                 pyRound ((bfin.queue_length - ofin.queue_length) /
                   max 1 bfin.queue_length * 100) 1
               delay_reduction_pct :=
                 pyRound ((bfin.avg_delay_s - ofin.avg_delay_s) /
                   max 1 bfin.avg_delay_s * 100) 1
               fuel_saved_L := pyRound (bfin.fuel_L - ofin.fuel_L) 3
               co2_saved_kg := pyRound (pyRound (bfin.fuel_L - ofin.fuel_L) 3 * (231 / 100)) 3
               baseline_final_queue := bfin.queue_length
               optimized_final_queue := ofin.queue_length }
    | _, _ => none
  { duration_s := duration_s
    baseline := baseline_series
    optimized := optimized_series
    summary := summary }

/-! ## Road network and routing (src/backend/core/graph.py, optimizer.py) -/

/-- A road edge as stored by `generate_city_grid`: one record per undirected
connection, in the orientation reported by `G.edges()` (networkx lists each
undirected edge once, with `u` the endpoint that was inserted first). -/
structure RoadEdge where
  u : String
  v : String
  distance : ℚ
  speed_limit : ℚ
deriving DecidableEq, Repr

/-- `base_time = dist / (speed_limit / 3.6)` seconds (graph.py line 37). -/
def RoadEdge.base_time (e : RoadEdge) : ℚ :=
  e.distance / (e.speed_limit / (18 / 5))

/-- A road network: intersection ids plus undirected edges. -/
structure RoadGraph where
  nodes : List String
  edges : List RoadEdge
deriving DecidableEq, Repr

/-- Node id `"R-C"` of grid cell (r, c) (graph.py line 13). -/
def gridId (r c : ℕ) : String := s!"{r}-{c}"

/-- A 500 m, 50 km/h grid edge (graph.py lines 32-37). -/
def gridEdge (a b : String) : RoadEdge := ⟨a, b, 500, 50⟩

/-- `generate_city_grid(rows, cols)`: the `rows × cols` grid graph with
string ids "R-C" and 500 m, 50 km/h edges.  Nodes are listed row-major, as
networkx inserts them; each undirected edge is stored once, oriented from the
row-major-earlier endpoint, matching the orientation `G.edges()` reports. -/
def generate_city_grid (rows cols : ℕ) : RoadGraph :=
  { nodes := ((List.range rows).map fun r => (List.range cols).map fun c => gridId r c).flatten
    edges := (((List.range rows).map fun r => (List.range cols).map fun c =>
      (if r + 1 < rows then [gridEdge (gridId r c) (gridId (r + 1) c)] else []) ++
      (if c + 1 < cols then [gridEdge (gridId r c) (gridId r (c + 1))] else [])).flatten).flatten }

/-- `CITY_GRAPH = generate_city_grid(rows=7, cols=8)` (graph.py line 46). -/
def CITY_GRAPH : RoadGraph := generate_city_grid 7 8

/-- Python `d.get(k, 0)` on an association list. -/
def lookupQ (d : List (String × ℚ)) (k : String) : ℚ :=
  match d.find? fun p => p.1 = k with
  | some p => p.2
  | none => 0

/-- The `current_weight` attribute `get_best_route` assigns to a stored edge
(graph.py lines 77-96): with queue data present, `base_time` plus 2.0 s per
vehicle queued at the stored edge's second endpoint `v`; otherwise
`base_time`.  `if traffic_data:` is false for both `None` and the empty dict,
modelled by `Option` plus the emptiness test. -/
def currentWeight (traffic_data : Option (List (String × ℚ))) (e : RoadEdge) : ℚ :=
  match traffic_data with
  | some td =>
      if td.isEmpty then e.base_time
      else e.base_time + lookupQ td e.v * 2
  | none => e.base_time

/-- The stored (undirected) edge joining `a` and `b`, if any — the attribute
dict `G[a][b]` shared by both traversal directions. -/
def edgeFor (g : RoadGraph) (a b : String) : Option RoadEdge :=
  g.edges.find? fun e => (e.u = a ∧ e.v = b) ∨ (e.u = b ∧ e.v = a)

/-- The weight Dijkstra reads when relaxing the traversal `a → b`: the
`current_weight` of the shared stored edge. -/
def traversalWeight (g : RoadGraph) (traffic_data : Option (List (String × ℚ)))
    (a b : String) : Option ℚ :=
  (edgeFor g a b).map (currentWeight traffic_data)

/-- Neighbours of `x` with the weight charged for stepping from `x` to each,
under a per-traversal weight function `w from to edge`. -/
def neighborsW (g : RoadGraph) (w : String → String → RoadEdge → ℚ) (x : String) :
    List (String × ℚ) :=
  g.edges.foldr (fun e acc =>
    if e.u = x then (e.v, w x e.v e) :: acc
    else if e.v = x then (e.u, w x e.u e) :: acc
    else acc) []

/-- Remove a cheapest frontier entry (earliest on ties). -/
def extractMin : List (String × ℚ × List String) →
    Option ((String × ℚ × List String) × List (String × ℚ × List String))
  | [] => none
  | x :: xs =>
      match extractMin xs with
      | none => some (x, [])
      | some (m, rest) => if x.2.1 ≤ m.2.1 then some (x, xs) else some (m, x :: rest)

/-- Lazy-deletion Dijkstra loop.  Frontier entries carry the reversed path;
`fuel` only bounds the recursion (it is chosen large enough that it never
runs out before the frontier empties). -/
def dijkstraLoop (g : RoadGraph) (w : String → String → RoadEdge → ℚ) (target : String) :
    ℕ → List (String × ℚ × List String) → List String → Option (List String)
  | 0, _, _ => none
  | fuel + 1, frontier, visited =>
      match extractMin frontier with
      | none => none
      | some ((x, d, rpath), rest) =>
          if x ∈ visited then dijkstraLoop g w target fuel rest visited
          else if x = target then some rpath.reverse
          else dijkstraLoop g w target fuel
            (rest ++ (neighborsW g w x).map fun p => (p.1, d + p.2, p.1 :: rpath))
            (x :: visited)

/-- Errors of the networkx search routines: `NodeNotFound` when an endpoint
is not in the graph, `NetworkXNoPath` when no path exists. -/
inductive NxError where
  | nodeNotFound
  | noPath
deriving DecidableEq, Repr

/-- Modelled from the spec: `nx.shortest_path(G, source, target,
weight=...)`, the external networkx routine called by `get_best_route`
(networkx is a collaborator library, not part of src/).  It raises
`NodeNotFound` if either endpoint is not a node, raises `NetworkXNoPath` if
the endpoints are not connected, and otherwise returns a minimum-weight path
from source to target (Dijkstra). -/
def nxShortestPath (g : RoadGraph) (w : String → String → RoadEdge → ℚ)
    (source target : String) : Except NxError (List String) :=
  if source ∈ g.nodes ∧ target ∈ g.nodes then
    match dijkstraLoop g w target (2 * g.edges.length + g.nodes.length + 2)
        [(source, 0, [source])] [] with
    | some p => Except.ok p
    | none => Except.error NxError.noPath
  else Except.error NxError.nodeNotFound

/-- `get_best_route` generalized over the graph it routes on (the code
hard-wires `CITY_GRAPH`): assign every stored edge its `current_weight`, run
the weighted shortest-path search, and catch only `NetworkXNoPath`, turning
it into the empty path; `NodeNotFound` escapes uncaught. -/
def get_best_route_on (g : RoadGraph) (start_node end_node : String)
    (traffic_data : Option (List (String × ℚ))) : Except NxError (List String) :=
  match nxShortestPath g (fun _ _ e => currentWeight traffic_data e) start_node end_node with
  | Except.error NxError.noPath => Except.ok []
  | r => r

/-- `get_best_route(start_node, end_node, traffic_data)` (graph.py 69-102). -/
def get_best_route (start_node end_node : String)
    (traffic_data : Option (List (String × ℚ))) : Except NxError (List String) :=
  get_best_route_on CITY_GRAPH start_node end_node traffic_data

/-- Live state consumed by `TrafficOptimizer.calculate_cost`. -/
structure RealtimeData where
  signals : List (String × String)
  queues : List (String × ℚ)
deriving DecidableEq, Repr

/-- `TrafficOptimizer.calculate_cost(u, v, data, realtime_data)`
(optimizer.py lines 8-24): base travel time, plus 30 s if the traversal
target `v` shows a RED signal, plus 2 s per queued vehicle at `v`. -/
def calculate_cost (e : RoadEdge) (v : String) (realtime_data : Option RealtimeData) : ℚ :=
  match realtime_data with
  | none => e.base_time
  | some rd =>
      e.base_time +
        (if (rd.signals.find? fun p => p.1 = v).map Prod.snd = some "RED" then 30 else 0) +
        lookupQ rd.queues v * 2

/-- `TrafficOptimizer.find_optimal_path` (optimizer.py lines 26-41):
`nx.astar_path` with the `calculate_cost` weight, catching only
`NetworkXNoPath`.  The A* search itself is modelled as a minimum-weight
search (`nxShortestPath`); the claims below rely only on its unknown-node
guard and on the exception mapping, which `astar_path` shares with
`shortest_path`. -/
def find_optimal_path (g : RoadGraph) (start_node end_node : String)
    (realtime_data : Option RealtimeData) : Except NxError (List String) :=
  match nxShortestPath g (fun _ b e => calculate_cost e b realtime_data) start_node end_node with
  | Except.error NxError.noPath => Except.ok []
  | r => r

/-! ## SPaT replay engine (src/backend/simulation/spat_engine.py) -/

/-- A parsed signal transition event (spat_engine.py, `SpatEvent`). -/
structure SpatEvent where
  time_s : ℚ
  intersection_id : String
  phase : String
  duration_s : ℚ
deriving DecidableEq, Repr

/-- A raw CSV row as `csv.DictReader` delivers it.  The numeric fields are
`Option ℚ`: `none` stands for a missing or non-numeric `time_s`/`duration_s`
entry, on which `float(...)` raises. -/
structure RawRow where
  time_s : Option ℚ
  intersection_id : String
  phase : String
  duration_s : Option ℚ
deriving DecidableEq, Repr

/-- The observable state of a `SpatEngine` (its `events`, `duration_s`,
`_current_state`, `_current_time` and `_loaded` attributes; the lock and the
csv path are omitted). -/
structure EngineState where
  events : List SpatEvent
  duration_s : ℚ
  current_state : List (String × String)
  current_time : ℚ
  loaded : Bool
deriving DecidableEq, Repr

/-- A freshly constructed engine (spat_engine.py `__init__`). -/
def initEngine : EngineState :=
  { events := [], duration_s := 0, current_state := [], current_time := 0, loaded := false }

/-- The load-time parse error (`ValueError`/`TypeError`/`KeyError` from
`float(row[...])` on a bad row). -/
inductive LoadError where
  | parseError
deriving DecidableEq, Repr

/-- Python `str.strip()`: drop leading and trailing whitespace (modelled
over the string's character list). -/
def pyStrip (s : String) : String :=
  ⟨((s.data.dropWhile Char.isWhitespace).reverse.dropWhile Char.isWhitespace).reverse⟩

/-- Python `str.upper()` (the SPaT phases are ASCII): uppercase every
character. -/
def pyUpper (s : String) : String :=
  ⟨s.data.map Char.toUpper⟩

/-- Converting one CSV row into a `SpatEvent` (spat_engine.py lines 73-78):
fails if `time_s` or `duration_s` is missing or non-numeric; the id is
stripped and the phase is stripped and upper-cased. -/
def parseRow (r : RawRow) : Option SpatEvent :=
  match r.time_s, r.duration_s with
  | some t, some d =>
      some { time_s := t
             intersection_id := pyStrip r.intersection_id
             phase := pyUpper (pyStrip r.phase)
             duration_s := d }
  | _, _ => none

/-- The row loop of `load`: appends parsed events to the accumulator and
stops at the first bad row; the Bool records whether every row parsed. -/
def loadRows : List RawRow → List SpatEvent → List SpatEvent × Bool
  | [], acc => (acc, true)
  | r :: rs, acc =>
      match parseRow r with
      | some e => loadRows rs (acc ++ [e])
      | none => (acc, false)

/-- Stable insertion of an event into a list sorted by `time_s` (placed after
every element with `time_s ≤` its own, as Python's stable sort orders it). -/
def insertEvent (e : SpatEvent) : List SpatEvent → List SpatEvent
  | [] => [e]
  | x :: xs => if x.time_s ≤ e.time_s then x :: insertEvent e xs else e :: x :: xs

/-- `self.events.sort(key=lambda e: e.time_s)`: a stable sort by start time. -/
def sortEvents (l : List SpatEvent) : List SpatEvent :=
  l.foldl (fun acc e => insertEvent e acc) []

/-- `SpatEngine.load` (spat_engine.py lines 67-86) on an in-memory source.
It first clears `self.events`, then parses row by row; a bad row raises,
leaving the partially refilled event list behind while `duration_s` and
`_loaded` keep their prior values.  On success the events are sorted,
`duration_s` becomes `last.time_s + last.duration_s` when events exist
(`if self.events:` leaves it untouched otherwise) and `_loaded` is set. -/
def load (st : EngineState) (rows : List RawRow) : EngineState × Option LoadError :=
  match loadRows rows [] with
  | (evts, true) =>
      let sorted := sortEvents evts
      let dur :=
        match sorted.getLast? with
        | some last => last.time_s + last.duration_s
        | none => st.duration_s
      ({ st with events := sorted, duration_s := dur, loaded := true }, none)
  | (evts, false) => ({ st with events := evts }, some LoadError.parseError)

/-- Keys in first-occurrence order: the iteration order of the
`defaultdict` that `get_state_at` builds from `self.events`. -/
def dedupFirst (seen : List String) : List String → List String
  | [] => []
  | x :: xs => if x ∈ seen then dedupFirst seen xs else x :: dedupFirst (x :: seen) xs

/-- The active interval `[start, start + duration)` of `e` contains `t`. -/
def covers (e : SpatEvent) (t : ℚ) : Prop :=
  e.time_s ≤ t ∧ t < e.time_s + e.duration_s

instance (e : SpatEvent) (t : ℚ) : Decidable (covers e t) := by
  unfold covers; infer_instance

/-- The inner scan of `get_state_at` for one intersection: the phase of the
first listed event of `node_id` that covers `t`, defaulting to "RED". -/
def activePhase (events : List SpatEvent) (node_id : String) (t : ℚ) : String :=
  match events.find? fun e => decide (e.intersection_id = node_id ∧ covers e t) with
  | some e => e.phase
  | none => "RED"

/-- `SpatEngine.get_state_at(t)` (spat_engine.py lines 101-120): one entry
per intersection occurring in `events` (grouping preserves the per-node event
order, and the result dict holds the nodes in first-occurrence order). -/
def get_state_at (events : List SpatEvent) (t : ℚ) : List (String × String) :=
  (dedupFirst [] (events.map fun e => e.intersection_id)).map
    fun node_id => (node_id, activePhase events node_id t)

/-- A snapshot as yielded by `get_snapshot` / `replay`. -/
structure Snapshot where
  time_s : ℚ
  duration_s : ℚ
  progress : ℚ
  states : List (String × String)
deriving DecidableEq, Repr

/-- `SpatEngine.get_snapshot` (spat_engine.py lines 90-99): the progress
division is guarded — `if self.duration_s` falls back to 0. -/
def get_snapshot (st : EngineState) : Snapshot :=
  { time_s := st.current_time
    duration_s := st.duration_s
    progress :=
      if st.duration_s ≠ 0 then pyRound (st.current_time / st.duration_s * 100) 1 else 0
    states := st.current_state }

/-- Division that records Python's `ZeroDivisionError` as `none`. -/
def safeDiv (a b : ℚ) : Option ℚ :=
  if b = 0 then none else some (a / b)

/-- The snapshot `replay` yields at simulated time `t` — `none` models the
`ZeroDivisionError` of the unguarded `t / self.duration_s`. -/
def replaySnapAt (st : EngineState) (t : ℚ) : Option Snapshot :=
  (safeDiv t st.duration_s).map fun p =>
    { time_s := pyRound t 1
      duration_s := st.duration_s
      progress := pyRound (p * 100) 1
      states := get_state_at st.events t }

/-- Number of iterations of `t = 0; while t <= duration: ...; t += step` for
`step > 0`. -/
def numSteps (duration_s step_s : ℚ) : ℕ :=
  if duration_s < 0 then 0 else (Int.floor (duration_s / step_s)).toNat + 1

/-- Sequence a list of optional values, stopping at the first `none` (the
first raised exception). -/
def optionSeq {α : Type} : List (Option α) → Option (List α)
  | [] => some []
  | none :: _ => none
  | some a :: rest => (optionSeq rest).map fun l => a :: l

/-- The full sequence of values yielded by `SpatEngine.replay(speed, step_s)`
(spat_engine.py lines 124-149), run on an already-loaded engine.  The
wall-clock `time.sleep(step_s / speed)` is dropped, but its division is kept:
`speed = 0` raises before the first yield.  A non-positive `step_s` never
terminates, modelled as `none`.  Unlike `get_snapshot`, the progress division
`t / self.duration_s` is not guarded. -/
def replaySnapshots (st : EngineState) (speed step_s : ℚ) : Option (List Snapshot) :=
  if speed = 0 then none
  else if step_s ≤ 0 then none
  else optionSeq ((List.range (numSteps st.duration_s step_s)).map
    fun k : ℕ => replaySnapAt st ((k : ℚ) * step_s))

/-- `SpatEngine.build_timeline` (spat_engine.py lines 151-162): `get_state_at`
at every 5-second mark from 0 to `int(duration)` inclusive. -/
def build_timeline (st : EngineState) : List (ℕ × List (String × String)) :=
  ((List.range (Int.toNat (int_trunc st.duration_s) + 1)).filter fun t => t % 5 = 0).map
    fun t => (t, get_state_at st.events (t : ℚ))

/-! ## Concrete instances used by the theorems below -/

/-- The three-node network of the routing example in the spec: a direct
500 m / 50 km/h edge from A to B and a two-hop detour through M.  The edge
between B and M is stored in the orientation (B, M), i.e. with M as the
second endpoint, as networkx reports it when B was inserted before M. -/
def exampleNetwork : RoadGraph :=
  { nodes := ["A", "B", "M"]
    edges := [gridEdge "A" "B", gridEdge "A" "M", gridEdge "B" "M"] }

/-- Live queues of the routing example: 50 vehicles at destination B. -/
def exampleQueues : List (String × ℚ) := [("B", 50)]

/-- An engine that already holds one loaded event, used to observe what a
failing reload leaves behind. -/
def spatPriorState : EngineState :=
  { events := [⟨0, "OLD", "RED", 45⟩], duration_s := 45
    current_state := [], current_time := 0, loaded := true }

/-- A well-formed CSV row. -/
def goodRow : RawRow := ⟨some 10, "A", "green", some 5⟩

/-- A row whose `time_s` field is missing or non-numeric. -/
def badRow : RawRow := ⟨none, "B", "RED", some 5⟩

/-- A source whose second row is malformed. -/
def spatBadRows : List RawRow := [goodRow, badRow, ⟨some 20, "C", "RED", some 5⟩]

/-- A single well-formed event starting at 0 with duration 0: the loaded
engine has one event yet total duration 0. -/
def zeroDurationRow : RawRow := ⟨some 0, "A", "GREEN", some 0⟩

/-- The engine produced by loading only `zeroDurationRow`. -/
def zeroDurationEngine : EngineState := (load initEngine [zeroDurationRow]).1

/-- A loaded engine with a single 40-second GREEN event (duration 40). -/
def replayDemoEngine : EngineState :=
  { events := [⟨0, "A", "GREEN", 40⟩], duration_s := 40
    current_state := [], current_time := 0, loaded := true }

/-- A small loaded event table: A is GREEN on [0,40), YELLOW on [40,45);
B is RED on [0,45). -/
def sampleEvents : List SpatEvent :=
  [⟨0, "A", "GREEN", 40⟩, ⟨40, "A", "YELLOW", 5⟩, ⟨0, "B", "RED", 45⟩]

/-! ## Helper lemmas -/

theorem roundHalfEven_intCast (n : ℤ) : roundHalfEven (n : ℚ) = n := by
  unfold roundHalfEven
  simp [Int.floor_intCast]

theorem find?_congr {α : Type} (p q : α → Bool) (h : ∀ x, p x = q x) :
    ∀ l : List α, l.find? p = l.find? q := by
  intro l
  induction l with
  | nil => rfl
  | cons x xs ih => simp only [List.find?, h x, ih]

theorem currentWeight_some (td : List (String × ℚ)) (e : RoadEdge) :
    currentWeight (some td) e = e.base_time + lookupQ td e.v * 2 := by
  cases td with
  | nil => simp [currentWeight, lookupQ, List.find?]
  | cons p ps => simp [currentWeight]

theorem edgeFor_symm (g : RoadGraph) (a b : String) :
    edgeFor g a b = edgeFor g b a := by
  unfold edgeFor
  exact find?_congr _ _ (fun e => decide_eq_decide.mpr (by tauto)) g.edges

theorem lookup_map_pair (f : String → String) :
    ∀ (l : List String) (x : String), x ∈ l →
      List.lookup x (l.map fun a => (a, f a)) = some (f x) := by
  intro l
  induction l with
  | nil => intro x hx; cases hx
  | cons a as ih =>
      intro x hx
      by_cases hxa : x = a
      · subst hxa; simp [List.lookup]
      · have hmem : x ∈ as := by
          rcases List.mem_cons.mp hx with h | h
          · exact absurd h hxa
          · exact h
        simpa [List.lookup, beq_eq_false_iff_ne.mpr hxa] using ih x hmem

theorem mem_dedupFirst : ∀ (l : List String) (seen : List String) (x : String),
    x ∈ dedupFirst seen l ↔ x ∈ l ∧ x ∉ seen := by
  intro l
  induction l with
  | nil => intro seen x; simp [dedupFirst]
  | cons a as ih =>
      intro seen x
      by_cases ha : a ∈ seen
      · rw [show dedupFirst seen (a :: as) = dedupFirst seen as by simp [dedupFirst, ha]]
        rw [ih seen x]
        simp only [List.mem_cons]
        constructor
        · rintro ⟨h1, h2⟩; exact ⟨Or.inr h1, h2⟩
        · rintro ⟨h1 | h1, h2⟩
          · exact absurd (h1 ▸ ha) h2
          · exact ⟨h1, h2⟩
      · rw [show dedupFirst seen (a :: as) = a :: dedupFirst (a :: seen) as by
          simp [dedupFirst, ha]]
        simp only [List.mem_cons, ih (a :: seen) x]
        constructor
        · rintro (h | ⟨h1, h2⟩)
          · exact ⟨Or.inl h, h ▸ ha⟩
          · exact ⟨Or.inr h1, fun hs => h2 (Or.inr hs)⟩
        · rintro ⟨h1 | h1, h2⟩
          · exact Or.inl h1
          · by_cases hxa : x = a
            · exact Or.inl hxa
            · exact Or.inr ⟨h1, fun hs => by
                rcases hs with h | h
                · exact hxa h
                · exact h2 h⟩

theorem activePhase_cons_of_match (x : SpatEvent) (xs : List SpatEvent)
    (node_id : String) (t : ℚ) (h1 : x.intersection_id = node_id) (h2 : covers x t) :
    activePhase (x :: xs) node_id t = x.phase := by
  unfold activePhase
  rw [List.find?_cons_of_pos _ (by simp [h1, h2])]

theorem activePhase_cons_of_no_match (x : SpatEvent) (xs : List SpatEvent)
    (node_id : String) (t : ℚ) (h : ¬ (x.intersection_id = node_id ∧ covers x t)) :
    activePhase (x :: xs) node_id t = activePhase xs node_id t := by
  unfold activePhase
  rw [List.find?_cons_of_neg _ (by simpa using h)]

theorem activePhase_spec_some :
    ∀ (events : List SpatEvent) (node_id : String) (t : ℚ) (e : SpatEvent),
      e ∈ events → e.intersection_id = node_id → covers e t →
      (∀ e' ∈ events, e'.intersection_id = node_id → covers e' t → e' = e) →
      activePhase events node_id t = e.phase := by
  intro events
  induction events with
  | nil => intro _ _ e he; cases he
  | cons x xs ih =>
      intro node_id t e he hid hcov huniq
      by_cases hx : x.intersection_id = node_id ∧ covers x t
      · rw [activePhase_cons_of_match x xs node_id t hx.1 hx.2]
        rw [huniq x (List.mem_cons_self x xs) hx.1 hx.2]
      · rw [activePhase_cons_of_no_match x xs node_id t hx]
        have he' : e ∈ xs := by
          rcases List.mem_cons.mp he with h | h
          · exact absurd ⟨h ▸ hid, h ▸ hcov⟩ hx
          · exact h
        exact ih node_id t e he' hid hcov
          (fun e' h' => huniq e' (List.mem_cons.mpr (Or.inr h')))

theorem activePhase_spec_none :
    ∀ (events : List SpatEvent) (node_id : String) (t : ℚ),
      (∀ e ∈ events, e.intersection_id = node_id → ¬ covers e t) →
      activePhase events node_id t = "RED" := by
  intro events node_id t hnone
  unfold activePhase
  rw [List.find?_eq_none.mpr]
  intro e he
  simp only [decide_eq_true_eq, not_and]
  exact hnone e he

theorem loadRows_stops_at_bad_row (r : RawRow) (rs : List RawRow) (hr : parseRow r = none) :
    ∀ (pre : List RawRow) (acc : List SpatEvent), (∀ p ∈ pre, (parseRow p).isSome) →
      loadRows (pre ++ r :: rs) acc = (acc ++ pre.filterMap parseRow, false) := by
  intro pre
  induction pre with
  | nil => intro acc _; simp [loadRows, hr]
  | cons p ps ih =>
      intro acc hall
      obtain ⟨e, he⟩ := Option.isSome_iff_exists.mp (hall p (List.mem_cons_self p ps))
      rw [List.cons_append, show loadRows (p :: (ps ++ r :: rs)) acc =
        loadRows (ps ++ r :: rs) (acc ++ [e]) by simp [loadRows, he]]
      rw [ih (acc ++ [e]) (fun q hq => hall q (List.mem_cons.mpr (Or.inr hq)))]
      simp [List.filterMap_cons, he]

theorem dijkstraLoop_pop_new (g : RoadGraph) (w : String → String → RoadEdge → ℚ)
    (target : String) (fuel : ℕ) (frontier rest : List (String × ℚ × List String))
    (visited : List String) (x : String) (d : ℚ) (rpath : List String)
    (hmin : extractMin frontier = some ((x, d, rpath), rest))
    (hx : x ∉ visited) (hxt : x ≠ target) :
    dijkstraLoop g w target (fuel + 1) frontier visited =
      dijkstraLoop g w target fuel
        (rest ++ (neighborsW g w x).map fun p => (p.1, d + p.2, p.1 :: rpath))
        (x :: visited) := by
  simp [dijkstraLoop, hmin, hx, hxt]

theorem dijkstraLoop_pop_seen (g : RoadGraph) (w : String → String → RoadEdge → ℚ)
    (target : String) (fuel : ℕ) (frontier rest : List (String × ℚ × List String))
    (visited : List String) (x : String) (d : ℚ) (rpath : List String)
    (hmin : extractMin frontier = some ((x, d, rpath), rest))
    (hx : x ∈ visited) :
    dijkstraLoop g w target (fuel + 1) frontier visited =
      dijkstraLoop g w target fuel rest visited := by
  simp [dijkstraLoop, hmin, hx]

theorem dijkstraLoop_pop_target (g : RoadGraph) (w : String → String → RoadEdge → ℚ)
    (target : String) (fuel : ℕ) (frontier rest : List (String × ℚ × List String))
    (visited : List String) (d : ℚ) (rpath : List String)
    (hmin : extractMin frontier = some ((target, d, rpath), rest))
    (hx : target ∉ visited) :
    dijkstraLoop g w target (fuel + 1) frontier visited = some rpath.reverse := by
  simp [dijkstraLoop, hmin, hx]

/-- The weight function `get_best_route` hands to the search on the example
network. -/
def exW : String → String → RoadEdge → ℚ := fun _ _ e => currentWeight (some exampleQueues) e

theorem exwAB : currentWeight (some exampleQueues) (⟨"A", "B", 500, 50⟩ : RoadEdge) = 136 := by
  rw [currentWeight_some,
    show lookupQ exampleQueues (RoadEdge.v ⟨"A", "B", 500, 50⟩) = 50 from by decide]
  norm_num [RoadEdge.base_time]

theorem exwAM : currentWeight (some exampleQueues) (⟨"A", "M", 500, 50⟩ : RoadEdge) = 36 := by
  rw [currentWeight_some,
    show lookupQ exampleQueues (RoadEdge.v ⟨"A", "M", 500, 50⟩) = 0 from by decide]
  norm_num [RoadEdge.base_time]

theorem exwBM : currentWeight (some exampleQueues) (⟨"B", "M", 500, 50⟩ : RoadEdge) = 36 := by
  rw [currentWeight_some,
    show lookupQ exampleQueues (RoadEdge.v ⟨"B", "M", 500, 50⟩) = 0 from by decide]
  norm_num [RoadEdge.base_time]

theorem exnA : neighborsW exampleNetwork exW "A" = [("B", 136), ("M", 36)] := by
  simp [neighborsW, exampleNetwork, exW, gridEdge, exwAB, exwAM]

theorem exnM : neighborsW exampleNetwork exW "M" = [("A", 36), ("B", 36)] := by
  simp [neighborsW, exampleNetwork, exW, gridEdge, exwAM, exwBM]

theorem numTicks_300 : numTicks 300 = 61 := by
  have h : (300 : ℚ) / DT = ((60 : ℤ) : ℚ) := by norm_num [DT]
  unfold numTicks
  rw [if_neg (by norm_num), h, Int.floor_intCast]
  rfl

theorem optionSeq_map_some {α β : Type} (f : α → Option β) (g : α → β) :
    ∀ l : List α, (∀ x ∈ l, f x = some (g x)) →
      optionSeq (l.map f) = some (l.map g) := by
  intro l
  induction l with
  | nil => intro _; rfl
  | cons x xs ih =>
      intro h
      rw [List.map_cons, List.map_cons,
        show f x = some (g x) from h x (List.mem_cons_self x xs)]
      simp only [optionSeq, ih (fun y hy => h y (List.mem_cons.mpr (Or.inr hy))),
        Option.map_some']

/-! ## Claim theorems -/

/-- C8: for every queue depth q ≥ 0 the adaptive green duration
`min(55, 25 + floor(0.6*q))` lies in [25, 55] and is non-decreasing in the
queue depth; consequently `adaptive(t=0, i=0, queue=0) = GREEN` with green
duration 25. -/
theorem green_time_bounded_monotone :
    (∀ q : ℚ, 0 ≤ q → 25 ≤ green_time q ∧ green_time q ≤ 55) ∧
    (∀ q1 q2 : ℚ, 0 ≤ q1 → q1 ≤ q2 → green_time q1 ≤ green_time q2) ∧
    optimized_signal 0 0 0 = Phase.GREEN ∧ green_time 0 = 25 := by
  have hgt : green_time 0 = 25 := by
    unfold green_time int_trunc
    rw [if_pos (by norm_num)]
    norm_num
  have hsig : optimized_signal 0 0 0 = Phase.GREEN := by
    unfold optimized_signal
    rw [hgt]
    norm_num
  refine ⟨fun q hq => ?_, fun q1 q2 h1 h12 => ?_, hsig, hgt⟩
  · have h6 : (0 : ℚ) ≤ q * (6 / 10) := by positivity
    have hf : (0 : ℤ) ≤ ⌊q * (6 / 10)⌋ := Int.floor_nonneg.mpr h6
    unfold green_time int_trunc
    rw [if_pos h6]
    exact ⟨le_min (by norm_num) (by omega), min_le_left _ _⟩
  · have h1' : (0 : ℚ) ≤ q1 * (6 / 10) := by positivity
    have h2' : (0 : ℚ) ≤ q2 * (6 / 10) :=
      mul_nonneg (le_trans h1 h12) (by norm_num)
    have hff : ⌊q1 * (6 / 10)⌋ ≤ ⌊q2 * (6 / 10)⌋ :=
      Int.floor_le_floor (by nlinarith)
    unfold green_time int_trunc
    rw [if_pos h1', if_pos h2']
    exact min_le_min (le_refl _) (by omega)

/-- Witness for C8 at concrete queue depths. -/
theorem green_time_bounded_monotone_witness :
    (25 ≤ green_time 10 ∧ green_time 10 ≤ 55) ∧ green_time 3 ≤ green_time 7 :=
  ⟨green_time_bounded_monotone.1 10 (by norm_num),
   green_time_bounded_monotone.2.1 3 7 (by norm_num) (by norm_num)⟩

/-- C3: throughout `run_comparison` — for every non-negative duration, at
every simulated tick `k` of the run and for every corridor intersection —
the queue depth of both the baseline and the optimized node state is ≥ 0,
for every non-negative arrival-rate profile (the code starts from queue 0;
`arrival_rate` is non-negative). -/
theorem run_comparison_queues_nonneg (arr : ℕ → ℚ) (harr : ∀ t, 0 ≤ arr t)
    (duration_s : ℚ) (_hdur : 0 ≤ duration_s) (k i : ℕ)
    (_hk : k ≤ numTicks duration_s) (_hi : i < CORRIDOR_IDS.length) :
    0 ≤ (baselineState arr i k).queue ∧ 0 ≤ (optimizedState arr i k).queue := by
  clear _hdur _hk _hi
  induction k with
  | zero => exact ⟨le_refl 0, le_refl 0⟩
  | succ k ih =>
      have ha : 0 ≤ arr (5 * k) * DT :=
        mul_nonneg (harr (5 * k)) (by norm_num [DT])
      constructor
      · show 0 ≤ (stepBaseline (5 * k) i (arr (5 * k) * DT) (baselineState arr i k)).queue
        cases hp : baseline_signal (5 * k) i <;>
          simp only [stepBaseline, hp]
        · exact le_max_left 0 _
        · have := ih.1; nlinarith
        · exact add_nonneg ih.1 ha
      · show 0 ≤ (stepOptimized (5 * k) i (arr (5 * k) * DT) (optimizedState arr i k)).queue
        cases hp : optimized_signal (5 * k) i (optimizedState arr i k).queue <;>
          simp only [stepOptimized, hp]
        · exact le_max_left 0 _
        · have := ih.2; nlinarith
        · exact add_nonneg ih.2 ha

/-- Witness for C3: constant unit arrival rate, duration 300, tick 3,
intersection 2. -/
theorem run_comparison_queues_nonneg_witness :
    0 ≤ (baselineState (fun _ => 1) 2 3).queue ∧
    0 ≤ (optimizedState (fun _ => 1) 2 3).queue :=
  run_comparison_queues_nonneg (fun _ => 1) (fun _ => by norm_num) 300 (by norm_num)
    3 2 (by rw [numTicks_300]; norm_num) (by norm_num [CORRIDOR_IDS])

/-- C4: `run_comparison` with duration 300 and DT = 5 produces exactly 61
records in each series, one per tick t ∈ {0, 5, ..., 300} in increasing
order — for every arrival profile, hence for the `arrival_rate` of the
code. -/
theorem run_comparison_300_record_times (arr : ℕ → ℚ) :
    (run_comparison arr 300).baseline.length = 61 ∧
    (run_comparison arr 300).optimized.length = 61 ∧
    (run_comparison arr 300).baseline.map (fun rec => rec.time_s) =
      (List.range 61).map (fun k => (5 * k : ℤ)) ∧
    (run_comparison arr 300).optimized.map (fun rec => rec.time_s) =
      (List.range 61).map (fun k => (5 * k : ℤ)) := by
  have h61 : numTicks 300 = 61 := numTicks_300
  have hbase : (run_comparison arr 300).baseline =
      (List.range 61).map (baselineRecord arr) := by
    simp [run_comparison, h61]
  have hopt : (run_comparison arr 300).optimized =
      (List.range 61).map (optimizedRecord arr) := by
    simp [run_comparison, h61]
  have htime : ∀ k : ℕ, roundHalfEven (5 * (k : ℚ)) = (5 * k : ℤ) := by
    intro k
    rw [show (5 * (k : ℚ)) = (((5 * k : ℤ) : ℚ)) by push_cast; ring,
      roundHalfEven_intCast]
  refine ⟨?_, ?_, ?_, ?_⟩
  · rw [hbase]; simp
  · rw [hopt]; simp
  · rw [hbase, List.map_map]
    exact List.map_congr_left fun k _ => htime k
  · rw [hopt, List.map_map]
    exact List.map_congr_left fun k _ => htime k

/-- C6: for every time t and every intersection occurring in the loaded
events, `get_state_at t` maps it to the phase of the (unique) event of that
intersection whose interval [start, start + duration) contains t, and to RED
when no event of that intersection covers t — in particular for every t
strictly before its first event start. -/
theorem get_state_at_point_query (events : List SpatEvent) (t : ℚ) (node_id : String) :
    (∀ e, e ∈ events → e.intersection_id = node_id → covers e t →
      (∀ e' ∈ events, e'.intersection_id = node_id → covers e' t → e' = e) →
      List.lookup node_id (get_state_at events t) = some e.phase) ∧
    ((∃ e ∈ events, e.intersection_id = node_id) →
      (∀ e ∈ events, e.intersection_id = node_id → ¬ covers e t) →
      List.lookup node_id (get_state_at events t) = some "RED") := by
  constructor
  · intro e he hid hcov huniq
    have hmem : node_id ∈ dedupFirst [] (events.map fun ev => ev.intersection_id) := by
      rw [mem_dedupFirst]
      exact ⟨List.mem_map.mpr ⟨e, he, hid⟩, by simp⟩
    unfold get_state_at
    rw [lookup_map_pair (fun n => activePhase events n t) _ _ hmem,
      activePhase_spec_some events node_id t e he hid hcov huniq]
  · rintro ⟨e, he, hid⟩ hnone
    have hmem : node_id ∈ dedupFirst [] (events.map fun ev => ev.intersection_id) := by
      rw [mem_dedupFirst]
      exact ⟨List.mem_map.mpr ⟨e, he, hid⟩, by simp⟩
    unfold get_state_at
    rw [lookup_map_pair (fun n => activePhase events n t) _ _ hmem,
      activePhase_spec_none events node_id t hnone]

/-- Witness for C6 on a concrete event table: at t = 10 intersection A shows
its covering event's phase GREEN; at t = 100 (after all events) it shows
RED. -/
theorem get_state_at_point_query_witness :
    List.lookup "A" (get_state_at sampleEvents 10) = some "GREEN" ∧
    List.lookup "A" (get_state_at sampleEvents 100) = some "RED" :=
  ⟨(get_state_at_point_query sampleEvents 10 "A").1 ⟨0, "A", "GREEN", 40⟩
      (by norm_num [sampleEvents]) rfl (by norm_num [covers])
      (by norm_num [sampleEvents, covers]; decide),
   (get_state_at_point_query sampleEvents 100 "A").2
      ⟨⟨0, "A", "GREEN", 40⟩, by norm_num [sampleEvents], rfl⟩
      (by norm_num [sampleEvents, covers])⟩

/-- C10: for every time t, the key set of the map returned by
`get_state_at t` is exactly the set of intersection ids occurring in the
loaded events — an intersection with no event is absent altogether, not
reported as RED. -/
theorem get_state_at_key_set (events : List SpatEvent) (t : ℚ) (node_id : String) :
    node_id ∈ (get_state_at events t).map Prod.fst ↔
      ∃ e ∈ events, e.intersection_id = node_id := by
  unfold get_state_at
  rw [List.map_map]
  rw [show (Prod.fst ∘ fun n => (n, activePhase events n t)) = id from funext fun _ => rfl]
  rw [List.map_id, mem_dedupFirst]
  simp [List.mem_map]

/-- C7 counterexample: a failed load is observably partial.  Reloading the
`spatPriorState` engine from a source whose second row is malformed raises a
parse error, yet leaves the engine's event list changed (cleared and refilled
with the rows parsed before the failure), so the observable state differs
from the state before the load attempt. -/
theorem load_failure_leaves_partial_state :
    (load spatPriorState spatBadRows).2 = some LoadError.parseError ∧
    (load spatPriorState spatBadRows).1.events =
      [⟨10, "A", "GREEN", 5⟩] ∧
    (load spatPriorState spatBadRows).1 ≠ spatPriorState := by
  have h1 : pyStrip "A" = "A" := by decide
  have h2 : pyUpper (pyStrip "green") = "GREEN" := by decide
  have hgood : parseRow goodRow = some ⟨10, "A", "GREEN", 5⟩ := by
    simp [parseRow, goodRow, h1, h2]
  have hbad : parseRow badRow = none := rfl
  have h : load spatPriorState spatBadRows =
      ({ spatPriorState with events := [⟨10, "A", "GREEN", 5⟩] },
        some LoadError.parseError) := by
    simp [load, loadRows, spatBadRows, hgood, hbad]
  refine ⟨by rw [h], by rw [h], ?_⟩
  rw [h]
  intro hcontra
  have hev := congrArg EngineState.events hcontra
  simp only [spatPriorState, List.cons.injEq, SpatEvent.mk.injEq] at hev
  exact absurd hev.1.2.1 (by decide)

/-- C7 (amended): `load` fails immediately at the first malformed row with a
parse error — later rows are not consulted and the bad row is not skipped —
but the failed load is partial: the event list was cleared at the start of
`load` and on failure holds exactly the events parsed before the bad row,
while `duration_s` and the loaded flag keep their prior values. -/
theorem load_fails_fast_but_partial (st : EngineState) (pre : List RawRow)
    (r : RawRow) (rs : List RawRow)
    (hpre : ∀ p ∈ pre, (parseRow p).isSome) (hr : parseRow r = none) :
    load st (pre ++ r :: rs) =
      ({ st with events := pre.filterMap parseRow }, some LoadError.parseError) := by
  unfold load
  rw [loadRows_stops_at_bad_row r rs hr pre [] hpre]
  rfl

/-- Witness for C7 (amended) on a concrete engine and source. -/
theorem load_fails_fast_but_partial_witness :
    load initEngine ([goodRow] ++ badRow :: [goodRow]) =
      ({ initEngine with events := [goodRow].filterMap parseRow },
        some LoadError.parseError) :=
  load_fails_fast_but_partial initEngine [goodRow] badRow [goodRow]
    (by norm_num [goodRow, parseRow]) (by norm_num [badRow, parseRow])

/-- C9 counterexample: a loaded table with one event need not have positive
duration.  Loading the single event (time 0, duration 0) gives a loaded
engine with one event but total duration 0, and `replay` then fails with a
division error at its first yield (modelled as `none`) although
speed = 1 > 0 and step = 1 > 0. -/
theorem replay_zero_duration_division_error :
    zeroDurationEngine.loaded = true ∧
    zeroDurationEngine.events.length = 1 ∧
    replaySnapshots zeroDurationEngine 1 1 = none := by
  have h1 : pyStrip "A" = "A" := by decide
  have h2 : pyUpper (pyStrip "GREEN") = "GREEN" := by decide
  have hrow : parseRow zeroDurationRow = some ⟨0, "A", "GREEN", 0⟩ := by
    simp [parseRow, zeroDurationRow, h1, h2]
  have h : zeroDurationEngine =
      { events := [⟨0, "A", "GREEN", 0⟩], duration_s := 0
        current_state := [], current_time := 0, loaded := true } := by
    simp [zeroDurationEngine, load, loadRows, hrow, sortEvents, insertEvent, initEngine]
  refine ⟨by rw [h], by rw [h]; rfl, ?_⟩
  rw [h]
  norm_num [replaySnapshots, numSteps, optionSeq, replaySnapAt, safeDiv]

/-- C9 (amended): for every loaded engine whose total duration is positive
and every speed > 0 and step > 0, `replay` yields its full snapshot sequence
and each snapshot's progress is `round(t / duration * 100, 1)`; the
`duration > 0` precondition is needed because, unlike `get_snapshot` (which
returns progress 0 when the duration is 0), the replay generator divides
unguarded. -/
theorem replay_progress_formula :
    (∀ (st : EngineState) (speed step_s : ℚ),
      st.loaded = true → 0 < st.duration_s → 0 < speed → 0 < step_s →
      replaySnapshots st speed step_s =
        some ((List.range (numSteps st.duration_s step_s)).map fun k : ℕ =>
          { time_s := pyRound ((k : ℚ) * step_s) 1
            duration_s := st.duration_s
            progress := pyRound ((k : ℚ) * step_s / st.duration_s * 100) 1
            states := get_state_at st.events ((k : ℚ) * step_s) })) ∧
    (∀ st : EngineState, st.duration_s = 0 → (get_snapshot st).progress = 0) := by
  constructor
  · intro st speed step_s _ hdur hspeed hstep
    unfold replaySnapshots
    rw [if_neg (ne_of_gt hspeed), if_neg (not_le.mpr hstep)]
    apply optionSeq_map_some
    intro k _
    unfold replaySnapAt safeDiv
    rw [if_neg (ne_of_gt hdur)]
    rfl
  · intro st h
    simp [get_snapshot, h]

/-- Witness for C9 (amended): the demo engine of duration 40 replayed at
speed 2 with step 20. -/
theorem replay_progress_formula_witness :
    replaySnapshots replayDemoEngine 2 20 =
      some ((List.range (numSteps replayDemoEngine.duration_s 20)).map fun k : ℕ =>
        { time_s := pyRound ((k : ℚ) * 20) 1
          duration_s := replayDemoEngine.duration_s
          progress := pyRound ((k : ℚ) * 20 / replayDemoEngine.duration_s * 100) 1
          states := get_state_at replayDemoEngine.events ((k : ℚ) * 20) }) :=
  replay_progress_formula.1 replayDemoEngine 2 20 rfl
    (by norm_num [replayDemoEngine]) (by norm_num) (by norm_num)

/-- C1 counterexample: an unknown endpoint does not give the empty path.
"9-9" is not a node of the 7×8 grid, and both `get_best_route` and
`find_optimal_path` propagate the search's `NodeNotFound` error (only
`NetworkXNoPath` is caught), instead of returning the empty sequence the
claim asserts. -/
theorem route_unknown_endpoint_error :
    get_best_route "9-9" "0-0" none = Except.error NxError.nodeNotFound ∧
    get_best_route "9-9" "0-0" none ≠ Except.ok [] ∧
    find_optimal_path CITY_GRAPH "9-9" "0-0" none = Except.error NxError.nodeNotFound := by
  have h1 : get_best_route "9-9" "0-0" none = Except.error NxError.nodeNotFound := rfl
  exact ⟨h1, fun h => Except.noConfusion (h1.symm.trans h), rfl⟩

/-- C1 (amended): the empty path is returned only for a no-path outcome
between known endpoints; whenever the start or the end id is not a node of
the network, both routing operations raise `NodeNotFound` (their
`except nx.NetworkXNoPath` clause does not catch it) instead of returning
an empty sequence. -/
theorem route_unknown_endpoint_behaviour :
    (∀ (s t : String) (traffic : Option (List (String × ℚ))) (rd : Option RealtimeData),
      s ∉ CITY_GRAPH.nodes ∨ t ∉ CITY_GRAPH.nodes →
      get_best_route s t traffic = Except.error NxError.nodeNotFound ∧
      find_optimal_path CITY_GRAPH s t rd = Except.error NxError.nodeNotFound) ∧
    get_best_route_on ⟨["A", "B"], []⟩ "A" "B" none = Except.ok [] := by
  constructor
  · intro s t traffic rd h
    have hcond : ¬ (s ∈ CITY_GRAPH.nodes ∧ t ∈ CITY_GRAPH.nodes) := by tauto
    constructor
    · unfold get_best_route get_best_route_on nxShortestPath
      rw [if_neg hcond]
    · unfold find_optimal_path nxShortestPath
      rw [if_neg hcond]
  · rfl

/-- Witness for C1 (amended) at a concrete unknown start id. -/
theorem route_unknown_endpoint_behaviour_witness :
    get_best_route "9-9" "0-1" none = Except.error NxError.nodeNotFound ∧
    find_optimal_path CITY_GRAPH "9-9" "0-1" none = Except.error NxError.nodeNotFound :=
  route_unknown_endpoint_behaviour.1 "9-9" "0-1" none none (Or.inl (by decide))

/-- C2 counterexample: the penalty is not applied to the traversal's
destination.  The grid stores the edge between "0-0" and "1-0" in the
orientation (u = "0-0", v = "1-0"); with 5 vehicles queued at "1-0" and none
at "0-0", the weight used for traversing from "1-0" into "0-0" is
36 + 2·5 = 46, not the 36 + 2·queue("0-0") = 36 the claim's per-direction
formula gives. -/
theorem traversal_weight_wrong_direction :
    edgeFor CITY_GRAPH "1-0" "0-0" = some (gridEdge "0-0" "1-0") ∧
    traversalWeight CITY_GRAPH (some [("1-0", 5)]) "1-0" "0-0" = some 46 ∧
    (gridEdge "0-0" "1-0").base_time + lookupQ [("1-0", 5)] "0-0" * 2 = 36 ∧
    (46 : ℚ) ≠ 36 := by
  have he : edgeFor CITY_GRAPH "1-0" "0-0" = some (gridEdge "0-0" "1-0") := by decide
  refine ⟨he, ?_, ?_, by norm_num⟩
  · unfold traversalWeight
    rw [he, Option.map_some', currentWeight_some,
      show lookupQ [("1-0", (5 : ℚ))] (RoadEdge.v (gridEdge "0-0" "1-0")) = 5 from by decide]
    norm_num [gridEdge, RoadEdge.base_time]
  · rw [show lookupQ [("1-0", (5 : ℚ))] "0-0" = 0 from by decide]
    norm_num [gridEdge, RoadEdge.base_time]

/-- C2 (amended): each undirected edge carries a single weight shared by
both traversal directions: with a queue mapping it is
`base_time + 2 · queue(v)` where v is the stored orientation's second
endpoint — so the claim's formula holds for traversals along the stored
orientation, while the reverse traversal reuses the same weight instead of
the actual destination's queue; with no queue mapping the weight is
`base_time` in both directions. -/
theorem traversal_weight_shared_both_directions (a b : String) (e : RoadEdge)
    (td : List (String × ℚ)) (h : edgeFor CITY_GRAPH a b = some e) :
    traversalWeight CITY_GRAPH (some td) a b = some (e.base_time + lookupQ td e.v * 2) ∧
    traversalWeight CITY_GRAPH (some td) b a = some (e.base_time + lookupQ td e.v * 2) ∧
    traversalWeight CITY_GRAPH none a b = some e.base_time := by
  have h2 : edgeFor CITY_GRAPH b a = some e := by rw [edgeFor_symm]; exact h
  refine ⟨?_, ?_, ?_⟩ <;> unfold traversalWeight
  · rw [h, Option.map_some', currentWeight_some]
  · rw [h2, Option.map_some', currentWeight_some]
  · rw [h, Option.map_some']
    rfl

/-- Witness for C2 (amended) on the stored edge ("0-1", "1-1") with 7
vehicles queued at "1-1". -/
theorem traversal_weight_shared_both_directions_witness :
    traversalWeight CITY_GRAPH (some [("1-1", 7)]) "0-1" "1-1" =
      some ((gridEdge "0-1" "1-1").base_time +
        lookupQ [("1-1", 7)] (gridEdge "0-1" "1-1").v * 2) ∧
    traversalWeight CITY_GRAPH (some [("1-1", 7)]) "1-1" "0-1" =
      some ((gridEdge "0-1" "1-1").base_time +
        lookupQ [("1-1", 7)] (gridEdge "0-1" "1-1").v * 2) ∧
    traversalWeight CITY_GRAPH none "0-1" "1-1" = some (gridEdge "0-1" "1-1").base_time :=
  traversal_weight_shared_both_directions "0-1" "1-1" (gridEdge "0-1" "1-1")
    [("1-1", 7)] (by decide)

/-- C5: on a network realizing the spec's routing example — a direct
500 m / 50 km/h edge A→B of base travel time 36 s whose destination B has
live queue 50 (penalty 100 s, direct weight 136 s), and a two-edge detour
A–M–B of 36 s per weighted edge (72 s total, M and A queue-free) — the
routing operation selects the detour over the direct edge. -/
theorem route_prefers_uncongested_detour :
    (gridEdge "A" "B").base_time = 36 ∧
    currentWeight (some exampleQueues) (gridEdge "A" "B") = 136 ∧
    currentWeight (some exampleQueues) (gridEdge "A" "M") = 36 ∧
    currentWeight (some exampleQueues) (gridEdge "B" "M") = 36 ∧
    lookupQ exampleQueues "M" = 0 ∧ lookupQ exampleQueues "A" = 0 ∧
    get_best_route_on exampleNetwork "A" "B" (some exampleQueues) =
      Except.ok ["A", "M", "B"] := by
  have hfuel : 2 * exampleNetwork.edges.length + exampleNetwork.nodes.length + 2 = 11 := by
    simp [exampleNetwork]
  have s1 : dijkstraLoop exampleNetwork exW "B" 11 [("A", 0, ["A"])] [] =
      dijkstraLoop exampleNetwork exW "B" 10
        [("B", 136, ["B", "A"]), ("M", 36, ["M", "A"])] ["A"] := by
    rw [show (11 : ℕ) = 10 + 1 from rfl,
      dijkstraLoop_pop_new exampleNetwork exW "B" 10 [("A", 0, ["A"])] [] [] "A" 0 ["A"]
        rfl (by simp) (by simp)]
    rw [exnA]
    norm_num
  have s2 : dijkstraLoop exampleNetwork exW "B" 10
        [("B", 136, ["B", "A"]), ("M", 36, ["M", "A"])] ["A"] =
      dijkstraLoop exampleNetwork exW "B" 9
        [("B", 136, ["B", "A"]), ("A", 72, ["A", "M", "A"]), ("B", 72, ["B", "M", "A"])]
        ["M", "A"] := by
    rw [show (10 : ℕ) = 9 + 1 from rfl,
      dijkstraLoop_pop_new exampleNetwork exW "B" 9
        [("B", 136, ["B", "A"]), ("M", 36, ["M", "A"])] [("B", 136, ["B", "A"])] ["A"]
        "M" 36 ["M", "A"] (by norm_num [extractMin]) (by simp) (by simp)]
    rw [exnM]
    norm_num
  have s3 : dijkstraLoop exampleNetwork exW "B" 9
        [("B", 136, ["B", "A"]), ("A", 72, ["A", "M", "A"]), ("B", 72, ["B", "M", "A"])]
        ["M", "A"] =
      dijkstraLoop exampleNetwork exW "B" 8
        [("B", 136, ["B", "A"]), ("B", 72, ["B", "M", "A"])] ["M", "A"] := by
    rw [show (9 : ℕ) = 8 + 1 from rfl,
      dijkstraLoop_pop_seen exampleNetwork exW "B" 8
        [("B", 136, ["B", "A"]), ("A", 72, ["A", "M", "A"]), ("B", 72, ["B", "M", "A"])]
        [("B", 136, ["B", "A"]), ("B", 72, ["B", "M", "A"])] ["M", "A"]
        "A" 72 ["A", "M", "A"] (by norm_num [extractMin]) (by simp)]
  have s4 : dijkstraLoop exampleNetwork exW "B" 8
        [("B", 136, ["B", "A"]), ("B", 72, ["B", "M", "A"])] ["M", "A"] =
      some ["A", "M", "B"] := by
    rw [show (8 : ℕ) = 7 + 1 from rfl,
      dijkstraLoop_pop_target exampleNetwork exW "B" 7
        [("B", 136, ["B", "A"]), ("B", 72, ["B", "M", "A"])] [("B", 136, ["B", "A"])]
        ["M", "A"] 72 ["B", "M", "A"] (by norm_num [extractMin]) (by simp)]
    rfl
  have hrun : nxShortestPath exampleNetwork exW "A" "B" = Except.ok ["A", "M", "B"] := by
    unfold nxShortestPath
    rw [if_pos (by simp [exampleNetwork]), hfuel, s1, s2, s3, s4]
  refine ⟨by norm_num [gridEdge, RoadEdge.base_time], exwAB, exwAM, exwBM,
    by decide, by decide, ?_⟩
  show (match nxShortestPath exampleNetwork exW "A" "B" with
    | Except.error NxError.noPath => Except.ok []
    | r => r) = Except.ok ["A", "M", "B"]
  rw [hrun]

end Slingshot
